import Mathlib

/-!
Verification of the search-and-scrape server (`src/main.py`).

The two tool operations are embedded shallowly:

* The HTML document a scrape call parses is modelled by the inductive
  `Html` (text nodes and elements with tag, attributes and children); a
  parsed document (the BeautifulSoup object) is a `List Html` of
  top-level nodes, exactly the tree `BeautifulSoup(response.text,
  'html.parser')` hands to the extraction code.
* The network boundary is an explicit input: `FetchResult` for `scrape`
  (the outcome of `session.get` plus any exception raised inside the
  `try` block) and `SearchResponse` for `search` (the outcome of
  `session.post`, `raise_for_status` and `response.json()`).
* Python `None` values inside the metadata dict are modelled by
  `Option String`; an absent dict key is absence from the association
  list.  The number of outbound HTTP requests a `search` call performs
  is tracked in the result so that short-circuiting is provable.
-/

/-- An HTML node as produced by the parser: a text node (bs4
`NavigableString`) or an element with tag name, attributes and
children. -/
inductive Html where
  | text (s : String) : Html
  | elem (tag : String) (attrs : List (String × String)) (children : List Html) : Html

/-- The tags removed by `for element in soup(['script', 'style', 'iframe']):
element.decompose()` in `scrape` (src/main.py lines 126-127). -/
def bannedTags : List String := ["script", "style", "iframe"]

mutual

/-- Effect of the decompose loop on one node: an element whose tag is in
`bannedTags` is removed together with its whole subtree; everything
else is kept, with its children pruned recursively. -/
def pruneN : Html → List Html
  | .text s => [.text s]
  | .elem t a c => if t ∈ bannedTags then [] else [.elem t a (pruneL c)]

/-- Effect of the decompose loop on a forest. -/
def pruneL : List Html → List Html
  | [] => []
  | n :: ns => pruneN n ++ pruneL ns

end

/-- A whitespace character as Python's `str.strip()` removes it (the
ASCII part; exotic Unicode whitespace is not modelled). -/
def isPySpace (c : Char) : Bool :=
  c = ' ' || c = '\t' || c = '\n' || c = '\r' || c = '\x0b' || c = '\x0c'

/-- Python `s.strip()`: leading and trailing whitespace removed. -/
def pyStrip (s : String) : String :=
  String.mk (((s.data.dropWhile isPySpace).reverse.dropWhile isPySpace).reverse)

/-- One text fragment as `get_text(separator='\n', strip=True)` collects
it: the node's string stripped of surrounding whitespace, dropped when
it strips to empty. -/
def stripFrag (s : String) : List String :=
  if pyStrip s = "" then [] else [pyStrip s]

mutual

/-- The text fragments one node contributes to
`soup.get_text(separator='\n', strip=True)`: a depth-first,
document-order walk collecting every text node, each stripped, empty
fragments skipped (bs4 `Tag._all_strings` with `strip=True`). -/
def stringsN : Html → List String
  | .text s => stripFrag s
  | .elem _ _ c => stringsL c

/-- The text fragments of a forest, in document order. -/
def stringsL : List Html → List String
  | [] => []
  | n :: ns => stringsN n ++ stringsL ns

end

mutual

/-- The fragments of the same walk when it instead skips every
`script`/`style`/`iframe` subtree: the fragments of exactly those text
nodes that do not sit below a banned element. -/
def keptN : Html → List String
  | .text s => stripFrag s
  | .elem t _ c => if t ∈ bannedTags then [] else keptL c

/-- The banned-subtree-skipping walk over a forest. -/
def keptL : List Html → List String
  | [] => []
  | n :: ns => keptN n ++ keptL ns

end

/-- `soup.get_text(separator='\n', strip=True)` (src/main.py line 130):
the collected fragments joined with a newline separator. -/
def getText (soup : List Html) : String :=
  String.intercalate "\n" (stringsL soup)

/-- Python string slicing `s[:n]`: the first `n` characters
(src/main.py line 134 uses `content[:5000]`). -/
def pySlice (s : String) (n : Nat) : String :=
  String.mk (s.data.take n)

/-- Attribute lookup on an attribute list (first binding wins, as in a
parsed tag's attribute dict). -/
def getAttr (attrs : List (String × String)) (k : String) : Option String :=
  (attrs.find? (fun p => p.1 == k)).map (fun p => p.2)

/-- bs4 `tag.get(key)`: the attribute's value, or Python `None`
(modelled `none`) when the attribute is absent (src/main.py lines 151,
156, 161, 165 use `.get('content')`). -/
def tagGet : Html → String → Option String
  | .text _, _ => none
  | .elem _ a _, k => getAttr a k

/-- Whether a tag carries every required attribute with the required
value, the filter `soup.find(name, attrs={...})` applies. -/
def attrsMatch (a : List (String × String)) (req : List (String × String)) : Bool :=
  req.all (fun p => getAttr a p.1 == some p.2)

mutual

/-- bs4 `find` restricted to one node's subtree: the node itself is
checked before its descendants (pre-order). -/
def findN (name : String) (req : List (String × String)) : Html → Option Html
  | .text _ => none
  | .elem t a c =>
      if t == name && attrsMatch a req then some (.elem t a c)
      else findL name req c

/-- bs4 `soup.find(name, attrs)`: the first element, in document
(pre-)order, whose tag equals `name` and whose attributes satisfy
`req`; `none` when no element matches (Python `None`). -/
def findL (name : String) (req : List (String × String)) : List Html → Option Html
  | [] => none
  | n :: ns =>
      match findN name req n with
      | some r => some r
      | none => findL name req ns

end

/-- bs4 `tag.string`: defined only when the node chain has exactly one
child at each step ending in a text node; otherwise Python `None`
(src/main.py line 146 uses `title.string`). -/
def dotString : Html → Option String
  | .text s => some s
  | .elem _ _ [c] => dotString c
  | .elem _ _ _ => none

/-- The metadata dict built by `scrape` when `include_metadata` is set
(src/main.py lines 141-165), as an insertion-ordered association list.
A found tag is always truthy in bs4 (`Tag.__bool__` returns `True`), so
each key is inserted exactly when the corresponding `find` returns a
tag; the inserted value is `title.string` or `.get('content')`, either
of which may be Python `None` (`none`). -/
def buildMetadata (soup : List Html) : List (String × Option String) :=
  (match findL "title" [] soup with
    | some t => [("title", dotString t)]
    | none => []) ++
  (match findL "meta" [("name", "description")] soup with
    | some m => [("description", tagGet m "content")]
    | none => []) ++
  (match findL "meta" [("name", "keywords")] soup with
    | some m => [("keywords", tagGet m "content")]
    | none => []) ++
  (match findL "meta" [("property", "og:title")] soup with
    | some m => [("og_title", tagGet m "content")]
    | none => []) ++
  (match findL "meta" [("property", "og:description")] soup with
    | some m => [("og_description", tagGet m "content")]
    | none => [])

/-- Key lookup in the metadata association list: `none` when the key is
absent from the dict, `some v` when it is present bound to `v` (where
`v` itself is `none` for a Python `None` value). -/
def mdLookup (m : List (String × Option String)) (k : String) : Option (Option String) :=
  (m.find? (fun p => p.1 == k)).map (fun p => p.2)

/-- `response.raise_for_status()`: a 4xx status raises an `HTTPError`
with a "Client Error" message, a 5xx status one with a "Server Error"
message, and any other status raises nothing.  The server's reason
phrase inside the real message is not modelled. -/
def httpErrorReason (status : Nat) (url : String) : Option String :=
  if 400 ≤ status && status < 500 then
    some (toString status ++ " Client Error for url: " ++ url)
  else if 500 ≤ status && status < 600 then
    some (toString status ++ " Server Error for url: " ++ url)
  else none

/-- The success record of a scrape call: the dict
`{"content": ..., "url": ..., "status": ...}` optionally extended with a
`"metadata"` key (src/main.py lines 133-137, 167). -/
structure ScrapeSuccess where
  content : String
  url : String
  status : Nat
  metadata : Option (List (String × Option String))
deriving Repr, DecidableEq

/-- The outcome of a scrape call: the success dict or the failure dict
`{"error": ..., "url": ...}` (src/main.py lines 169, 174, 178). -/
inductive ScrapeOutcome where
  | success (r : ScrapeSuccess) : ScrapeOutcome
  | failure (error : String) (url : String) : ScrapeOutcome
deriving Repr, DecidableEq

/-- Whether the outcome is the success dict. -/
def ScrapeOutcome.isSuccess : ScrapeOutcome → Bool
  | .success _ => true
  | .failure _ _ => false

/-- Whether the outcome is the failure dict. -/
def ScrapeOutcome.isFailure : ScrapeOutcome → Bool
  | .success _ => false
  | .failure _ _ => true

/-- What the environment did for one `session.get(url, ...)` call:
either the request completed with a status code and a parsed body, or
an exception was raised — `requestExn` for a
`requests.RequestException` (connection failure, timeout, ...),
`otherExn` for any other exception raised inside the `try` block. -/
inductive FetchResult where
  | ok (status : Nat) (body : List Html) : FetchResult
  | requestExn (msg : String) : FetchResult
  | otherExn (msg : String) : FetchResult

/-- The `scrape` tool (src/main.py lines 101-178) as a function of the
input URL, the `include_metadata` flag, and the fetch outcome.  A
`RequestException` — raised by the request itself or by
`raise_for_status()` on a 4xx/5xx status — produces the failure dict
with an "Error fetching URL" message; any other exception produces the
failure dict with an "Error scraping content" message.  Otherwise the
body is parsed, `script`/`style`/`iframe` elements are decomposed,
text is extracted and cut to 5000 characters, and metadata is attached
exactly when the flag is set. -/
def scrape (url : String) (include_metadata : Bool) (fetch : FetchResult) : ScrapeOutcome :=
  match fetch with
  | .requestExn msg => .failure ("Error fetching URL: " ++ msg) url
  | .otherExn msg => .failure ("Error scraping content: " ++ msg) url
  | .ok status body =>
    match httpErrorReason status url with
    | some reason => .failure ("Error fetching URL: " ++ reason) url
    | none =>
      let soup := pruneL body
      let content := getText soup
      if include_metadata then
        .success ⟨pySlice content 5000, url, status, some (buildMetadata soup)⟩
      else
        .success ⟨pySlice content 5000, url, status, none⟩

/-- A parsed JSON value as `response.json()` produces it (floats are
not modelled; the search claims only involve objects, arrays and
strings). -/
inductive Json where
  | null : Json
  | bool (b : Bool) : Json
  | num (n : Int) : Json
  | str (s : String) : Json
  | arr (xs : List Json) : Json
  | obj (kvs : List (String × Json)) : Json

/-- Python truthiness of a JSON value, as tested by
`if not organic_results:` (src/main.py line 81): `None`, `False`, `0`,
the empty string, the empty list and the empty dict are falsy. -/
def Json.falsy : Json → Bool
  | .null => true
  | .bool b => !b
  | .num n => n == 0
  | .str s => s == ""
  | .arr xs => xs.isEmpty
  | .obj kvs => kvs.isEmpty

/-- Key lookup in a parsed JSON object, as `results.get("organic", ...)`
performs it on the dict. -/
def jsonGet (kvs : List (String × Json)) (k : String) : Option Json :=
  (kvs.find? (fun p => p.1 == k)).map (fun p => p.2)

/-- The Python type name of a JSON value, as it appears in the
`AttributeError` raised when `.get` is called on a non-dict. -/
def Json.pyTypeName : Json → String
  | .null => "NoneType"
  | .bool _ => "bool"
  | .num _ => "int"
  | .str _ => "str"
  | .arr _ => "list"
  | .obj _ => "dict"

/-- `n` spaces, the indentation `json.dumps(..., indent=2)` emits. -/
def pad (n : Nat) : String :=
  String.mk (List.replicate n ' ')

/-- One lowercase hexadecimal digit. -/
def hexDigit (n : Nat) : Char :=
  if n < 10 then Char.ofNat (48 + n) else Char.ofNat (87 + n)

/-- Four lowercase hexadecimal digits, as in a JSON `\uXXXX` escape. -/
def uhex4 (n : Nat) : String :=
  String.mk [hexDigit (n / 4096 % 16), hexDigit (n / 256 % 16),
             hexDigit (n / 16 % 16), hexDigit (n % 16)]

/-- `json.dumps` escaping of one character with the default
`ensure_ascii=True`: quote, backslash and the named control characters
get two-character escapes, every other character outside `0x20`-`0x7e`
a `\uXXXX` escape (a surrogate pair above the BMP). -/
def escChar (c : Char) : String :=
  if c = '"' then "\\\""
  else if c = '\\' then "\\\\"
  else if c = '\n' then "\\n"
  else if c = '\t' then "\\t"
  else if c = '\r' then "\\r"
  else if c.toNat = 8 then "\\b"
  else if c.toNat = 12 then "\\f"
  else if c.toNat < 32 then "\\u" ++ uhex4 c.toNat
  else if c.toNat < 127 then String.singleton c
  else if c.toNat < 65536 then "\\u" ++ uhex4 c.toNat
  else
    "\\u" ++ uhex4 (55296 + (c.toNat - 65536) / 1024) ++
    "\\u" ++ uhex4 (56320 + (c.toNat - 65536) % 1024)

/-- `json.dumps` escaping of a string body. -/
def jsonEscape (s : String) : String :=
  String.join (s.data.map escChar)

mutual

/-- `json.dumps(value, indent=2)` at nesting indentation `ind`: items of
a non-empty array or object are placed one per line, indented two
spaces deeper, separated by commas; empty containers print without a
newline. -/
def dumpJson (ind : Nat) : Json → String
  | .null => "null"
  | .bool b => if b then "true" else "false"
  | .num n => toString n
  | .str s => "\"" ++ jsonEscape s ++ "\""
  | .arr [] => "[]"
  | .arr (x :: xs) =>
      "[\n" ++ pad (ind + 2) ++ dumpJson (ind + 2) x ++ dumpArr (ind + 2) xs ++
      "\n" ++ pad ind ++ "]"
  | .obj [] => "\x7b\x7d"
  | .obj (kv :: kvs) =>
      "\x7b\n" ++ pad (ind + 2) ++ dumpKV (ind + 2) kv ++ dumpObj (ind + 2) kvs ++
      "\n" ++ pad ind ++ "\x7d"

/-- One `"key": value` member of a serialized object. -/
def dumpKV (ind : Nat) : String × Json → String
  | (k, v) => "\"" ++ jsonEscape k ++ "\": " ++ dumpJson ind v

/-- The remaining members of a serialized array. -/
def dumpArr (ind : Nat) : List Json → String
  | [] => ""
  | x :: xs => ",\n" ++ pad ind ++ dumpJson ind x ++ dumpArr ind xs

/-- The remaining members of a serialized object. -/
def dumpObj (ind : Nat) : List (String × Json) → String
  | [] => ""
  | kv :: kvs => ",\n" ++ pad ind ++ dumpKV ind kv ++ dumpObj ind kvs

end

/-- `json.dumps(organic_results, indent=2)` (src/main.py line 85). -/
def jsonDumps2 (j : Json) : String := dumpJson 0 j

/-- What the environment did for the single `session.post(...)` call of
a `search` invocation: `requestExn` when the POST or
`raise_for_status()` raised a `requests.RequestException` (connection
failure, timeout, non-2xx status), `jsonExn` when a
`json.JSONDecodeError` was raised, `otherExn` for any other exception
inside the `try` block, and `parsed` when `response.json()` returned a
value. -/
inductive SearchResponse where
  | requestExn (msg : String) : SearchResponse
  | jsonExn (msg : String) : SearchResponse
  | otherExn (msg : String) : SearchResponse
  | parsed (results : Json) : SearchResponse

/-- The observable trace of one `search` call: the string it returns
and how many outbound HTTP requests it made. -/
structure SearchCall where
  result : String
  httpCalls : Nat
deriving Repr, DecidableEq

/-- The `search` tool (src/main.py lines 36-98) as a function of the
query, the value of the `SERPER_API_KEY` environment variable (`none`
when unset) and the network outcome.  A missing or empty key short-
circuits before any request (`if not api_key:`).  Otherwise one POST is
made; each exception class maps to its `except` clause's message.  On a
parsed dict the list at key `"organic"` (default `[]`) is taken; a
falsy value yields the sentinel string, anything else is serialized
with `json.dumps(..., indent=2)`.  Calling `.get` on a parsed non-dict
raises an `AttributeError`, absorbed by the broad `except` clause. -/
def search (query : String) (apiKey : Option String) (resp : SearchResponse) : SearchCall :=
  if apiKey.getD "" = "" then
    ⟨"Error: SERPER_API_KEY environment variable is not set", 0⟩
  else
    match resp with
    | .requestExn msg => ⟨"Error making API request: " ++ msg, 1⟩
    | .jsonExn msg => ⟨"Error parsing API response: " ++ msg, 1⟩
    | .otherExn msg => ⟨"Error occurred during search: " ++ msg, 1⟩
    | .parsed (.obj kvs) =>
      let organic := (jsonGet kvs "organic").getD (.arr [])
      if organic.falsy then ⟨"No results found for the query", 1⟩
      else ⟨jsonDumps2 organic, 1⟩
    | .parsed results =>
      ⟨"Error occurred during search: " ++ results.pyTypeName ++
        " object has no attribute get", 1⟩

/-- Decidable substring test, used to state that a result string does or
does not contain a marker. -/
def strContains (s pat : String) : Bool :=
  (List.range (s.length + 1)).any (fun i => pat.data.isPrefixOf (s.data.drop i))

theorem stringsL_append (xs ys : List Html) :
    stringsL (xs ++ ys) = stringsL xs ++ stringsL ys := by
  induction xs with
  | nil => simp [stringsL]
  | cons n xs ih => simp [stringsL, ih]

theorem stringsL_pruneL (ns : List Html) : stringsL (pruneL ns) = keptL ns := by
  refine keptL.induct (fun n => stringsL (pruneN n) = keptN n)
    (fun l => stringsL (pruneL l) = keptL l) ?_ ?_ ?_ ?_ ?_ ns
  · intro s
    simp [pruneN, stringsL, stringsN, keptN]
  · intro t a c hban
    simp [pruneN, keptN, hban, stringsL]
  · intro t a c hban ih
    simp [pruneN, keptN, hban, stringsL, stringsN, ih]
  · simp [pruneL, stringsL, keptL]
  · intro n l ihn ihl
    simp [pruneL, stringsL_append, stringsL, keptL, ihn, ihl]

theorem pySlice_length_le (s : String) (n : Nat) : (pySlice s n).length ≤ n := by
  have h : (pySlice s n).length = (s.data.take n).length := rfl
  rw [h, List.length_take]
  exact Nat.min_le_left _ _

/-- C1 counterexample: a fetch that completes with HTTP status 404 does
not produce a success record at all — `raise_for_status()` raises an
`HTTPError`, so `scrape` returns the failure record. -/
theorem scrape_404_is_failure_cex :
    (scrape "http://example.com/a" true (.ok 404 [Html.text "hi"])).isSuccess = false
    ∧ scrape "http://example.com/a" true (.ok 404 [Html.text "hi"])
        = ScrapeOutcome.failure
            "Error fetching URL: 404 Client Error for url: http://example.com/a"
            "http://example.com/a" := by
  exact ⟨rfl, rfl⟩

/-- C1 (amended): for every URL whose fetch completes with HTTP status
404, `scrape` returns the failure record `{error, url}` with the input
URL retained — `raise_for_status()` raises an `HTTPError` (a
`RequestException`) on every 4xx status, so no success record with
`status = 404` is ever produced. -/
theorem scrape_404_failure (url : String) (im : Bool) (body : List Html) :
    ∃ e, scrape url im (.ok 404 body) = ScrapeOutcome.failure e url :=
  ⟨_, rfl⟩

/-- C2: `scrape` never raises: for every input it returns exactly one
of the two outcome shapes, and every exception raised during fetch or
parse is converted into the failure record `{error, url}` carrying the
exception's message. -/
theorem scrape_never_raises (url : String) (im : Bool) :
    (∀ fetch, ((scrape url im fetch).isSuccess = true
                  ∧ (scrape url im fetch).isFailure = false)
             ∨ ((scrape url im fetch).isSuccess = false
                  ∧ (scrape url im fetch).isFailure = true))
  ∧ (∀ msg, scrape url im (.requestExn msg)
                = ScrapeOutcome.failure ("Error fetching URL: " ++ msg) url
          ∧ scrape url im (.otherExn msg)
                = ScrapeOutcome.failure ("Error scraping content: " ++ msg) url) := by
  constructor
  · intro fetch
    cases fetch with
    | ok status body =>
      cases hs : httpErrorReason status url with
      | none =>
        cases im <;>
          simp [scrape, hs, ScrapeOutcome.isSuccess, ScrapeOutcome.isFailure]
      | some reason =>
        simp [scrape, hs, ScrapeOutcome.isSuccess, ScrapeOutcome.isFailure]
    | requestExn m =>
      simp [scrape, ScrapeOutcome.isSuccess, ScrapeOutcome.isFailure]
    | otherExn m =>
      simp [scrape, ScrapeOutcome.isSuccess, ScrapeOutcome.isFailure]
  · intro msg
    exact ⟨rfl, rfl⟩

/-- C3: the `content` of every scrape success record is the (truncated)
newline-join of exactly those text fragments that lie outside every
`script`/`style`/`iframe` subtree of the fetched document: those
elements are decomposed before the text-extraction walk, so their text
never contributes. -/
theorem scrape_content_excludes_banned (url : String) (im : Bool) (status : Nat)
    (body : List Html) (r : ScrapeSuccess)
    (h : scrape url im (.ok status body) = ScrapeOutcome.success r) :
    r.content = pySlice (String.intercalate "\n" (keptL body)) 5000 := by
  rw [← stringsL_pruneL]
  cases hs : httpErrorReason status url with
  | some reason => simp [scrape, hs] at h
  | none =>
    cases im <;> simp [scrape, hs] at h <;> subst h <;> simp [getText]

/-- C3 demonstration page: a body holding an inline script next to a
paragraph. -/
def demoBody : List Html :=
  [Html.elem "body" []
    [Html.elem "script" [] [Html.text "evil()"],
     Html.elem "p" [] [Html.text "Hello"]]]

theorem scrape_content_excludes_banned_witness :
    (ScrapeSuccess.mk "Hello" "http://d" 200 none).content
      = pySlice (String.intercalate "\n" (keptL demoBody)) 5000 :=
  scrape_content_excludes_banned "http://d" false 200 demoBody
    ⟨"Hello", "http://d", 200, none⟩ (by decide)

/-- C4: the `content` field of every scrape success record has length
at most 5000 characters, whatever the input document. -/
theorem scrape_content_length_bound (url : String) (im : Bool) (fetch : FetchResult)
    (r : ScrapeSuccess) (h : scrape url im fetch = ScrapeOutcome.success r) :
    r.content.length ≤ 5000 := by
  cases fetch with
  | ok status body =>
    cases hs : httpErrorReason status url with
    | some reason => simp [scrape, hs] at h
    | none =>
      cases im <;> simp [scrape, hs] at h <;> subst h <;>
        exact pySlice_length_le _ _
  | requestExn m => simp [scrape] at h
  | otherExn m => simp [scrape] at h

theorem scrape_content_length_bound_witness :
    (ScrapeSuccess.mk "" "http://w4" 200 (some [])).content.length ≤ 5000 :=
  scrape_content_length_bound "http://w4" true (.ok 200 [])
    ⟨"", "http://w4", 200, some []⟩ (by decide)

/-- C5 counterexample: scraping a page whose only metadata element is a
`<meta name="description">` tag with no `content` attribute yields a
metadata mapping in which the `description` key is present and bound to
Python `None` — not omitted as the claim states. -/
def metaOnlyDoc : List Html :=
  [Html.elem "html" []
    [Html.elem "head" [] [Html.elem "meta" [("name", "description")] []]]]

theorem metadata_null_value_cex :
    scrape "http://m" true (.ok 200 metaOnlyDoc)
      = ScrapeOutcome.success ⟨"", "http://m", 200, some [("description", none)]⟩
    ∧ mdLookup [("description", none)] "description" = some none := by
  exact ⟨by decide, rfl⟩

/-- C5 (amended): each metadata key is present exactly when the
corresponding `find` call locates a source element (every found bs4 tag
is truthy); its value is then the element's exposed value, which is
Python `None` — not an omitted key — when a `<meta>` tag lacks its
`content` attribute or a `<title>` has no single resolvable string.  No
exception is raised in either case. -/
theorem metadata_key_iff_found (s : List Html) :
    mdLookup (buildMetadata s) "title" = (findL "title" [] s).map dotString
  ∧ mdLookup (buildMetadata s) "description"
      = (findL "meta" [("name", "description")] s).map (fun m => tagGet m "content")
  ∧ mdLookup (buildMetadata s) "keywords"
      = (findL "meta" [("name", "keywords")] s).map (fun m => tagGet m "content")
  ∧ mdLookup (buildMetadata s) "og_title"
      = (findL "meta" [("property", "og:title")] s).map (fun m => tagGet m "content")
  ∧ mdLookup (buildMetadata s) "og_description"
      = (findL "meta" [("property", "og:description")] s).map
          (fun m => tagGet m "content") := by
  unfold buildMetadata
  cases findL "title" [] s <;>
  cases findL "meta" [("name", "description")] s <;>
  cases findL "meta" [("name", "keywords")] s <;>
  cases findL "meta" [("property", "og:title")] s <;>
  cases findL "meta" [("property", "og:description")] s <;>
    exact ⟨rfl, rfl, rfl, rfl, rfl⟩

/-- C6: with `include_metadata = false` the returned record has no
`metadata` key at all, while `content`, `url` and `status` are
populated as usual. -/
theorem scrape_flag_unset_no_metadata (url : String) :
    (∀ fetch r, scrape url false fetch = ScrapeOutcome.success r → r.metadata = none)
  ∧ (∀ status body, httpErrorReason status url = none →
      scrape url false (.ok status body)
        = ScrapeOutcome.success
            ⟨pySlice (getText (pruneL body)) 5000, url, status, none⟩) := by
  constructor
  · intro fetch r h
    cases fetch with
    | ok status body =>
      cases hs : httpErrorReason status url with
      | some reason => simp [scrape, hs] at h
      | none => simp [scrape, hs] at h; subst h; rfl
    | requestExn m => simp [scrape] at h
    | otherExn m => simp [scrape] at h
  · intro status body hs
    simp [scrape, hs]

theorem scrape_flag_unset_no_metadata_witness :
    (ScrapeSuccess.mk "" "http://w6" 200 none).metadata = none
    ∧ scrape "http://w6" false (.ok 200 [])
        = ScrapeOutcome.success ⟨pySlice (getText (pruneL [])) 5000, "http://w6", 200, none⟩ :=
  ⟨(scrape_flag_unset_no_metadata "http://w6").1 (.ok 200 [])
      ⟨"", "http://w6", 200, none⟩ (by decide),
   (scrape_flag_unset_no_metadata "http://w6").2 200 [] (by decide)⟩

/-- C10: with `include_metadata = true` every scrape success record
carries a `metadata` key, whose value is the mapping built from the
pruned document — the empty mapping, not an absent key, when the page
exposes none of the five source elements. -/
theorem scrape_flag_set_metadata_present (url : String) (status : Nat)
    (body : List Html) (r : ScrapeSuccess)
    (h : scrape url true (.ok status body) = ScrapeOutcome.success r) :
    r.metadata = some (buildMetadata (pruneL body)) := by
  cases hs : httpErrorReason status url with
  | some reason => simp [scrape, hs] at h
  | none => simp [scrape, hs] at h; subst h; rfl

theorem scrape_flag_set_metadata_present_witness :
    (ScrapeSuccess.mk "" "http://wa" 200 (some [])).metadata
      = some (buildMetadata (pruneL [])) :=
  scrape_flag_set_metadata_present "http://wa" 200 []
    ⟨"", "http://wa", 200, some []⟩ (by decide)

/-- C7: with a configured key, a parsed response whose `organic` entry
is absent or the empty list makes `search` return the literal sentinel
string, while a non-empty `organic` list is returned serialized with
`json.dumps(..., indent=2)` verbatim. -/
theorem search_organic_empty_sentinel (query k : String) (hk : k ≠ "")
    (kvs : List (String × Json)) :
    (jsonGet kvs "organic" = none ∨ jsonGet kvs "organic" = some (Json.arr []) →
       search query (some k) (.parsed (.obj kvs))
         = ⟨"No results found for the query", 1⟩)
  ∧ (∀ xs, jsonGet kvs "organic" = some (Json.arr xs) → xs ≠ [] →
       search query (some k) (.parsed (.obj kvs)) = ⟨jsonDumps2 (Json.arr xs), 1⟩) := by
  constructor
  · rintro (h | h) <;> simp [search, hk, h, Json.falsy]
  · intro xs h hxs
    cases xs with
    | nil => exact absurd rfl hxs
    | cons x xs' => simp [search, hk, h, Json.falsy]

theorem search_organic_empty_sentinel_witness :
    search "q" (some "K") (.parsed (.obj [])) = ⟨"No results found for the query", 1⟩
    ∧ search "q" (some "K") (.parsed (.obj [("organic", Json.arr [Json.str "t"])]))
        = ⟨jsonDumps2 (Json.arr [Json.str "t"]), 1⟩ :=
  ⟨(search_organic_empty_sentinel "q" "K" (by decide) []).1 (Or.inl rfl),
   (search_organic_empty_sentinel "q" "K" (by decide)
      [("organic", Json.arr [Json.str "t"])]).2 [Json.str "t"] rfl
      (List.cons_ne_nil _ _)⟩

/-- C8: with no configured `SERPER_API_KEY`, `search` returns the
descriptive error string containing the `SERPER_API_KEY` marker and
makes zero outbound HTTP calls, for every query and whatever the
network would have answered. -/
theorem search_missing_key_short_circuit (query : String) (resp : SearchResponse) :
    (search query none resp).httpCalls = 0
    ∧ strContains (search query none resp).result "SERPER_API_KEY" = true :=
  ⟨rfl, rfl⟩

/-- C9 counterexample: a failing search call does not retain the input
query — the error string for a request exception is a fixed message
that does not contain the query text. -/
theorem search_error_drops_query_cex :
    strContains (search "qzx" (some "K") (.requestExn "boom")).result "qzx" = false := by
  decide

/-- C9 (amended): a scrape failure record always retains the input URL,
but a search error result does not retain the input query: the string
`search` returns is entirely independent of the query (only the scrape
half of the correlation property holds). -/
theorem error_payload_correlation :
    (∀ url im fetch, (scrape url im fetch).isFailure = true →
        ∃ e, scrape url im fetch = ScrapeOutcome.failure e url)
  ∧ (∀ q q' key resp, (search q key resp).result = (search q' key resp).result) := by
  constructor
  · intro url im fetch h
    cases fetch with
    | ok status body =>
      cases hs : httpErrorReason status url with
      | some reason =>
        exact ⟨"Error fetching URL: " ++ reason, by simp [scrape, hs]⟩
      | none =>
        cases im <;>
          simp [scrape, hs, ScrapeOutcome.isFailure] at h
    | requestExn m => exact ⟨_, rfl⟩
    | otherExn m => exact ⟨_, rfl⟩
  · intro q q' key resp
    rfl

theorem error_payload_correlation_witness :
    ∃ e, scrape "http://w9" true (.requestExn "down")
           = ScrapeOutcome.failure e "http://w9" :=
  error_payload_correlation.1 "http://w9" true (.requestExn "down") rfl
